import Mathlib

/-!
Verification of the travel-planner chat server (`app.py`).

The source is a small Flask application with three routes:

* `GET /`      (`index`)      — ensures the session transcript exists.
* `POST /chat` (`chat`)       — validates the message, replays the stored
  transcript to the Gemini gateway, appends the new user/model turns on
  success.
* `POST /clear` (`clear_chat`) — drops the session transcript.

plus an `after_request` hook (`add_header`) that stamps cache-disabling
headers on every response.

We embed the handlers as pure functions.  The Flask `session` dictionary is
modelled as `Option (List Turn)`: `none` when the `chat_history` key is
absent, `some h` when it is present and holds the turn list `h`.  The
external Gemini call (`model.start_chat(...).send_message(...)`) is modelled
as a function from the formatted history and the final message to
`Except String String`: `Except.error e` stands for the call raising an
exception whose string form is `e`, `Except.ok r` for a reply with text `r`.
The module-level condition `if not model` (the `GEMINI_API_KEY` check at
module load time) becomes the boolean parameter `modelConfigured`.
-/

namespace TravelPlanner

/-- The role of a stored turn: `"user"` or `"model"` in the Python dicts. -/
inductive Role where
  | user
  | model
deriving DecidableEq, Repr

/-- One element of `session["chat_history"]`:
`{"role": ..., "text": ...}` (app.py lines 107-108). -/
structure Turn where
  role : Role
  text : String
deriving DecidableEq, Repr

/-- One element of `formatted_history`: `{'role': role, 'parts': [msg["text"]]}`
(app.py line 93). -/
structure GMsg where
  role : Role
  parts : List String
deriving DecidableEq, Repr

/-- The JSON body of a response produced by the handlers:
`render_template(...)` for the index page, `jsonify({"response": ...})`,
`jsonify({"error": ...})`, and `jsonify({"status": ...})`. -/
inductive Body where
  | page
  | reply (s : String)
  | error (s : String)
  | status (s : String)
deriving DecidableEq, Repr

/-- An HTTP response: status code, JSON body, and headers. -/
structure Response where
  statusCode : Nat
  body : Body
  headers : List (String × String)
deriving DecidableEq, Repr

/-- The gateway (`model.start_chat(history=...)` followed by
`chat.send_message(final_message)`, app.py lines 96-104): given the
formatted history and the final message, either a reply text or an
exception. -/
abbrev Gateway := List GMsg → String → Except String String

/-- `SYSTEM_PROMPT` from app.py lines 21-45 (a Python triple-quoted string,
leading and trailing newline included). -/
def SYSTEM_PROMPT : String :=
"
You are an expert AI Travel Planner. Your goal is to help users plan their trips by gathering necessary details and then creating a comprehensive itinerary.

**Your Process:**
1.  **Greeting & Gathering Info:** Start by greeting the user. If they haven\x27t provided details, ask for:
    -   Destination (if not decided, ask for preferences like beach, mountains, city, etc.)
    -   Duration of the trip (how many days)
    -   Number of travelers (and if there are kids/seniors)
    -   Budget (low, medium, high)
    -   Interests (food, adventure, history, relaxation, etc.)
    *Do not ask all questions at once. Ask 1-2 questions at a time to keep the conversation natural.*

2.  **Refinement:** Once you have the basics, suggest a few broad options or confirm their choice. Ask about pacing (relaxed vs. packed) or specific must-see spots.

3.  **Itinerary Generation:** When you have sufficient information, generate a day-by-day itinerary.
    -   Be specific about places to visit.
    -   Suggest times for visits.
    -   Include restaurant or food recommendations.
    -   Mention estimated costs if possible.

4.  **Formatting:** Use Markdown for the itinerary to make it readable (bold headings, bullet points).

**Tone:**
Friendly, enthusiastic, professional, and helpful.
"

/-- The fixed 500 message returned when `GEMINI_API_KEY` is unset
(app.py line 57). -/
def apiKeyMissingMsg : String :=
  "API Key is missing. Please configure GEMINI_API_KEY in .env file."

/-- `session.get("chat_history", [])` (app.py line 64): the stored turn
list, defaulting to the empty list when the key is absent. -/
def loadHistory (sess : Option (List Turn)) : List Turn :=
  sess.getD []

/-- `"user" if msg["role"] == "user" else "model"` (app.py line 92). -/
def roleTag (r : Role) : Role :=
  match r with
  | .user => .user
  | _ => .model

/-- The `for msg in history` loop building `formatted_history`
(app.py lines 86-93): successive appends to an initially empty list. -/
def formattedHistory (history : List Turn) : List GMsg :=
  history.foldl (fun acc msg => acc ++ [⟨roleTag msg.role, [msg.text]⟩]) []

/-- `final_message` (app.py lines 99-101): the system prompt is prepended
exactly when the stored history is empty. -/
def finalMessage (history : List Turn) (user_message : String) : String :=
  if history.isEmpty then SYSTEM_PROMPT ++ "\n\nUser: " ++ user_message
  else user_message

/-- Python truthiness of `request.json.get("message")` (app.py line 60):
`not user_message` holds when the key is absent (`None`) or the string is
empty. -/
def isBlank : Option String → Bool
  | none => true
  | some s => s == ""

/-- The `/chat` handler (app.py lines 54-114).  Returns the response and
the session state after the request. -/
def chatEndpoint (modelConfigured : Bool) (sess : Option (List Turn))
    (message : Option String) (gateway : Gateway) :
    Response × Option (List Turn) :=
  if !modelConfigured then
    (⟨500, .error apiKeyMissingMsg, []⟩, sess)
  else if isBlank message then
    (⟨400, .error "No message provided", []⟩, sess)
  else
    let user_message := message.getD ""
    let history := loadHistory sess
    match gateway (formattedHistory history) (finalMessage history user_message) with
    | .ok ai_response_text =>
        (⟨200, .reply ai_response_text, []⟩,
         some (history ++ [⟨.user, user_message⟩, ⟨.model, ai_response_text⟩]))
    | .error e =>
        (⟨500, .error e, []⟩, sess)

/-- The `/` handler (app.py lines 47-52): create an empty transcript when
the key is absent, keep it otherwise. -/
def index (sess : Option (List Turn)) : Response × Option (List Turn) :=
  (⟨200, .page, []⟩, some (loadHistory sess))

/-- The `/clear` handler (app.py lines 116-119): `session.pop` removes the
key unconditionally and the response is always a success status. -/
def clear_chat (_sess : Option (List Turn)) : Response × Option (List Turn) :=
  (⟨200, .status "success", []⟩, none)

/-- `response.headers[k] = v`: replace the value when the header is already
present, append it otherwise. -/
def setHeader (hs : List (String × String)) (k v : String) :
    List (String × String) :=
  if hs.any (fun p => p.1 == k) then
    hs.map (fun p => if p.1 == k then (k, v) else p)
  else hs ++ [(k, v)]

/-- The `after_request` hook `add_header` (app.py lines 121-126). -/
def add_header (r : Response) : Response :=
  let hs1 := setHeader r.headers "Cache-Control"
    "no-store, no-cache, must-revalidate, post-check=0, pre-check=0, max-age=0"
  let hs2 := setHeader hs1 "Pragma" "no-cache"
  let hs3 := setHeader hs2 "Expires" "-1"
  { r with headers := hs3 }

/-- A request to one of the three routes.  The chat request carries the
optional `message` field of its JSON body and the gateway behaviour. -/
inductive Request where
  | getIndex
  | postChat (message : Option String) (gateway : Gateway)
  | postClear

/-- Full request handling: route dispatch followed by the `after_request`
hook, which Flask applies to every response. -/
def handleRequest (modelConfigured : Bool) (sess : Option (List Turn))
    (req : Request) : Response × Option (List Turn) :=
  let rs :=
    match req with
    | .getIndex => index sess
    | .postChat m g => chatEndpoint modelConfigured sess m g
    | .postClear => clear_chat sess
  (add_header rs.1, rs.2)

/-- Look a header up by name. -/
def lookupHeader (hs : List (String × String)) (k : String) : Option String :=
  (hs.find? (fun p => p.1 == k)).map (fun p => p.2)

/-- The two turns appended by one successful exchange with user message
`p.1` and model reply `p.2` (app.py lines 107-108). -/
def pairTurns (p : String × String) : List Turn :=
  [⟨.user, p.1⟩, ⟨.model, p.2⟩]

/-- The transcript produced by a sequence of (message, reply) exchanges. -/
def turnsOf : List (String × String) → List Turn
  | [] => []
  | p :: rest => pairTurns p ++ turnsOf rest

/-- The other role. -/
def flipRole : Role → Role
  | .user => .model
  | .model => .user

/-- `alternatingFrom r ts` holds when the roles of `ts` are
`r, flipRole r, r, ...` in order. -/
def alternatingFrom : Role → List Turn → Bool
  | _, [] => true
  | r, t :: ts => (t.role == r) && alternatingFrom (flipRole r) ts

/-- Run a sequence of chat requests (message plus gateway behaviour per
request) against the session, threading the session state. -/
def runExchanges (sess : Option (List Turn)) :
    List (String × Gateway) → Option (List Turn)
  | [] => sess
  | (m, g) :: rest => runExchanges (chatEndpoint true sess (some m) g).2 rest

/-- All requests in the sequence are successful chat exchanges (each one
answered with a 200). -/
def exchangesOk (sess : Option (List Turn)) :
    List (String × Gateway) → Bool
  | [] => true
  | (m, g) :: rest =>
      ((chatEndpoint true sess (some m) g).1.statusCode == 200) &&
      exchangesOk (chatEndpoint true sess (some m) g).2 rest

/-! ### Helper lemmas about the handlers -/

lemma isBlank_some_false {m : String} (hm : m ≠ "") : isBlank (some m) = false := by
  simp [isBlank, hm]

/-- Successful branch of `/chat`: message present and non-empty, gateway
returns a reply. -/
lemma chatEndpoint_ok (sess : Option (List Turn)) (m r : String) (g : Gateway)
    (hm : m ≠ "")
    (hg : g (formattedHistory (loadHistory sess))
            (finalMessage (loadHistory sess) m) = Except.ok r) :
    chatEndpoint true sess (some m) g =
      (⟨200, Body.reply r, []⟩,
       some (loadHistory sess ++ [⟨Role.user, m⟩, ⟨Role.model, r⟩])) := by
  simp [chatEndpoint, isBlank_some_false hm, hg]

/-- Failing branch of `/chat`: the gateway raises. -/
lemma chatEndpoint_err (sess : Option (List Turn)) (m e : String) (g : Gateway)
    (hm : m ≠ "")
    (hg : g (formattedHistory (loadHistory sess))
            (finalMessage (loadHistory sess) m) = Except.error e) :
    chatEndpoint true sess (some m) g = (⟨500, Body.error e, []⟩, sess) := by
  simp [chatEndpoint, isBlank_some_false hm, hg]

/-- Blank-message branch of `/chat` (configured key). -/
lemma chatEndpoint_blank (sess : Option (List Turn)) (msg : Option String)
    (g : Gateway) (hmsg : isBlank msg = true) :
    chatEndpoint true sess msg g =
      (⟨400, Body.error "No message provided", []⟩, sess) := by
  simp [chatEndpoint, hmsg]

/-- Missing-key branch of `/chat`. -/
lemma chatEndpoint_noKey (sess : Option (List Turn)) (msg : Option String)
    (g : Gateway) :
    chatEndpoint false sess msg g =
      (⟨500, Body.error apiKeyMissingMsg, []⟩, sess) := rfl

/-- The raw `/chat` response never carries headers of its own; they are all
added by the `after_request` hook. -/
lemma chatEndpoint_headers (cfg : Bool) (sess : Option (List Turn))
    (msg : Option String) (g : Gateway) :
    (chatEndpoint cfg sess msg g).1.headers = [] := by
  unfold chatEndpoint
  split
  · rfl
  · split
    · rfl
    · dsimp only
      split <;> rfl

lemma roleTag_id (r : Role) : roleTag r = r := by cases r <;> rfl

lemma formattedHistory_eq_map (history : List Turn) :
    formattedHistory history = history.map (fun t => ⟨t.role, [t.text]⟩) := by
  have key : ∀ (l : List Turn) (acc : List GMsg),
      l.foldl (fun acc msg => acc ++ [⟨roleTag msg.role, [msg.text]⟩]) acc
        = acc ++ l.map (fun t => ⟨t.role, [t.text]⟩) := by
    intro l
    induction l with
    | nil => intro acc; simp
    | cons t rest ih =>
        intro acc
        rw [List.foldl_cons, ih]
        simp [roleTag_id]
  simpa using key history []

lemma turnsOf_length (ps : List (String × String)) :
    (turnsOf ps).length = 2 * ps.length := by
  induction ps with
  | nil => rfl
  | cons p rest ih => simp [turnsOf, pairTurns, ih]; omega

lemma alternatingFrom_turnsOf (ps : List (String × String)) :
    alternatingFrom Role.user (turnsOf ps) = true := by
  induction ps with
  | nil => rfl
  | cons p rest ih => simpa [turnsOf, pairTurns, alternatingFrom, flipRole] using ih

/-- A 200 from `/chat` can only come from the gateway-success branch, so the
session afterwards is the old history plus the user/model pair. -/
lemma chat_success_shape (sess : Option (List Turn)) (m : String) (g : Gateway)
    (h : (chatEndpoint true sess (some m) g).1.statusCode = 200) :
    ∃ r, (chatEndpoint true sess (some m) g).2
        = some (loadHistory sess ++ pairTurns (m, r)) := by
  by_cases hm : m = ""
  · subst hm
    rw [chatEndpoint_blank sess (some "") g rfl] at h
    simp at h
  · cases hE : g (formattedHistory (loadHistory sess))
        (finalMessage (loadHistory sess) m) with
    | ok r =>
        exact ⟨r, by rw [chatEndpoint_ok sess m r g hm hE]; rfl⟩
    | error e =>
        rw [chatEndpoint_err sess m e g hm hE] at h
        simp at h

lemma runExchanges_shape :
    ∀ (xs : List (String × Gateway)) (h : List Turn),
      exchangesOk (some h) xs = true →
      ∃ ps : List (String × String),
        ps.map Prod.fst = xs.map Prod.fst ∧
        runExchanges (some h) xs = some (h ++ turnsOf ps) := by
  intro xs
  induction xs with
  | nil =>
      intro h _
      exact ⟨[], rfl, by simp [runExchanges, turnsOf]⟩
  | cons x rest ih =>
      intro h hok
      obtain ⟨m, g⟩ := x
      rw [exchangesOk, Bool.and_eq_true] at hok
      have h1 : (chatEndpoint true (some h) (some m) g).1.statusCode = 200 := by
        have := hok.1; simpa using this
      obtain ⟨r, hr⟩ := chat_success_shape (some h) m g h1
      have h2 := hok.2
      rw [hr] at h2
      have h2' : exchangesOk (some (h ++ pairTurns (m, r))) rest = true := by
        simpa [loadHistory] using h2
      obtain ⟨ps, hps1, hps2⟩ := ih (h ++ pairTurns (m, r)) h2'
      refine ⟨(m, r) :: ps, by simp [hps1], ?_⟩
      rw [runExchanges, hr]
      simp only [loadHistory, Option.getD_some]
      rw [hps2]
      simp [turnsOf]

/-- Claim C1: starting from an empty transcript, after N successful chat
exchanges the stored transcript has exactly 2N turns, alternating
user/model in call order (each exchange appends one user turn then one
model turn, the user texts being the request messages in order). -/
theorem transcript_after_exchanges (xs : List (String × Gateway))
    (hok : exchangesOk (some []) xs = true) :
    ∃ ps : List (String × String),
      ps.map Prod.fst = xs.map Prod.fst ∧
      runExchanges (some []) xs = some (turnsOf ps) ∧
      (turnsOf ps).length = 2 * xs.length ∧
      alternatingFrom Role.user (turnsOf ps) = true := by
  obtain ⟨ps, h1, h2⟩ := runExchanges_shape xs [] hok
  have hlen : ps.length = xs.length := by
    have := congrArg List.length h1
    simpa using this
  exact ⟨ps, h1, by simpa using h2,
    by rw [turnsOf_length, hlen], alternatingFrom_turnsOf ps⟩

/-- Concrete instance of `transcript_after_exchanges`: two successful
exchanges yield a four-turn alternating transcript. -/
theorem transcript_after_exchanges_witness :
    exchangesOk (some [])
        [("hi", fun _ _ => Except.ok "hello"),
         ("next", fun _ _ => Except.ok "sure")] = true ∧
    (∃ ps : List (String × String),
      ps.map Prod.fst =
        (([("hi", fun _ _ => Except.ok "hello"),
           ("next", fun _ _ => Except.ok "sure")] :
            List (String × Gateway))).map Prod.fst ∧
      runExchanges (some [])
          [("hi", fun _ _ => Except.ok "hello"),
           ("next", fun _ _ => Except.ok "sure")] = some (turnsOf ps) ∧
      (turnsOf ps).length = 2 *
        (([("hi", fun _ _ => Except.ok "hello"),
           ("next", fun _ _ => Except.ok "sure")] :
            List (String × Gateway))).length ∧
      alternatingFrom Role.user (turnsOf ps) = true) :=
  ⟨rfl, transcript_after_exchanges _ rfl⟩

/-- Claim C2: if the gateway call raises any exception, the response is a
500 carrying the failure description and the stored transcript is exactly
what it was before the request — no partial user-only append. -/
theorem gateway_failure_atomic (sess : Option (List Turn)) (m e : String)
    (g : Gateway) (hm : m ≠ "")
    (hg : g (formattedHistory (loadHistory sess))
            (finalMessage (loadHistory sess) m) = Except.error e) :
    chatEndpoint true sess (some m) g = (⟨500, Body.error e, []⟩, sess) :=
  chatEndpoint_err sess m e g hm hg

/-- Concrete instance of `gateway_failure_atomic`. -/
theorem gateway_failure_atomic_witness :
    chatEndpoint true (some [⟨Role.user, "a"⟩, ⟨Role.model, "b"⟩]) (some "hi")
        (fun _ _ => Except.error "boom")
      = (⟨500, Body.error "boom", []⟩,
         some [⟨Role.user, "a"⟩, ⟨Role.model, "b"⟩]) :=
  gateway_failure_atomic (some [⟨Role.user, "a"⟩, ⟨Role.model, "b"⟩]) "hi" "boom"
    (fun _ _ => Except.error "boom") (by decide) rfl

/-- Claim C3 counterexample: a chat request with the message missing does
not always get the 400 — when the API key is unconfigured the key check
runs first and the response is a 500. -/
theorem no_message_counterexample :
    (chatEndpoint false none none (fun _ _ => Except.ok "r")).1.statusCode = 500 ∧
    ¬ (chatEndpoint false none none (fun _ _ => Except.ok "r")).1.statusCode = 400 :=
  ⟨rfl, by decide⟩

/-- Claim C3 (amended): a chat request with a missing or empty message never
mutates the stored transcript, and when the API key is configured it returns
the 400 response with body error "No message provided". -/
theorem no_message_400 (sess : Option (List Turn)) (msg : Option String)
    (hmsg : isBlank msg = true) :
    (∀ (cfg : Bool) (g : Gateway), (chatEndpoint cfg sess msg g).2 = sess) ∧
    (∀ g : Gateway, chatEndpoint true sess msg g
        = (⟨400, Body.error "No message provided", []⟩, sess)) := by
  constructor
  · intro cfg g
    cases cfg with
    | false => rfl
    | true => rw [chatEndpoint_blank sess msg g hmsg]
  · intro g
    exact chatEndpoint_blank sess msg g hmsg

/-- Concrete instance of `no_message_400`. -/
theorem no_message_400_witness :
    isBlank none = true ∧
    ((∀ (cfg : Bool) (g : Gateway),
        (chatEndpoint cfg (some [⟨Role.user, "a"⟩]) none g).2
          = some [⟨Role.user, "a"⟩]) ∧
     (∀ g : Gateway, chatEndpoint true (some [⟨Role.user, "a"⟩]) none g
        = (⟨400, Body.error "No message provided", []⟩,
           some [⟨Role.user, "a"⟩]))) :=
  ⟨rfl, no_message_400 (some [⟨Role.user, "a"⟩]) none rfl⟩

/-- Claim C4: the system prompt is prepended to the message sent to the
gateway iff the stored transcript was empty before the request; after a
successful exchange the transcript is non-empty, so the second message of a
session is passed through unprefixed. -/
theorem prompt_applied_iff_empty (sess : Option (List Turn)) (m1 m2 r : String)
    (g : Gateway) (hm : m1 ≠ "")
    (hg : g (formattedHistory (loadHistory sess))
            (finalMessage (loadHistory sess) m1) = Except.ok r) :
    (∀ (h : List Turn) (m : String),
        finalMessage h m = SYSTEM_PROMPT ++ "\n\nUser: " ++ m ↔ h = []) ∧
    finalMessage (loadHistory (chatEndpoint true sess (some m1) g).2) m2 = m2 := by
  constructor
  · intro h m
    constructor
    · intro heq
      by_contra hne
      have hfe : h.isEmpty = false := by
        cases h with
        | nil => exact absurd rfl hne
        | cons a l => rfl
      simp only [finalMessage, hfe, Bool.false_eq_true, if_false] at heq
      have hl := congrArg String.length heq
      rw [String.length_append, String.length_append] at hl
      have h8 : ("\n\nUser: " : String).length = 8 := rfl
      omega
    · intro hh
      subst hh
      rfl
  · rw [chatEndpoint_ok sess m1 r g hm hg]
    show finalMessage (loadHistory sess ++ [Turn.mk Role.user m1, Turn.mk Role.model r]) m2 = m2
    have hfe : (loadHistory sess ++ [Turn.mk Role.user m1, Turn.mk Role.model r]).isEmpty
        = false := by
      cases loadHistory sess <;> rfl
    simp [finalMessage, hfe]

/-- Concrete instance of `prompt_applied_iff_empty`. -/
theorem prompt_applied_iff_empty_witness :
    "hi" ≠ "" ∧
    ((fun _ _ => Except.ok "hello" : Gateway)
        (formattedHistory (loadHistory (some [])))
        (finalMessage (loadHistory (some [])) "hi") = Except.ok "hello") ∧
    ((∀ (h : List Turn) (m : String),
        finalMessage h m = SYSTEM_PROMPT ++ "\n\nUser: " ++ m ↔ h = []) ∧
     finalMessage
        (loadHistory (chatEndpoint true (some []) (some "hi")
          (fun _ _ => Except.ok "hello")).2) "again" = "again") :=
  ⟨by decide, rfl,
   prompt_applied_iff_empty (some []) "hi" "again" "hello"
     (fun _ _ => Except.ok "hello") (by decide) rfl⟩

/-- Claim C5: with `GEMINI_API_KEY` unconfigured every chat request gets the
fixed 500 message and the session is untouched, whatever the message field
holds — in particular a missing message still yields the 500, not the 400. -/
theorem missing_key_refuses_all (sess : Option (List Turn))
    (msg : Option String) (g : Gateway) :
    chatEndpoint false sess msg g
      = (⟨500, Body.error apiKeyMissingMsg, []⟩, sess) ∧
    (chatEndpoint false sess none g).1.statusCode ≠ 400 := by
  refine ⟨chatEndpoint_noKey sess msg g, ?_⟩
  intro hc
  rw [chatEndpoint_noKey] at hc
  exact (by decide : (500 : Nat) ≠ 400) hc

/-- Claim C6: a successful first chat on an empty session returns 200 with
the reply and stores exactly the raw user message and the reply; the stored
user turn is the raw message, which differs from the prefixed text that was
sent to the gateway. -/
theorem first_exchange (m r : String) (g : Gateway) (hm : m ≠ "")
    (hg : g (formattedHistory []) (finalMessage [] m) = Except.ok r) :
    chatEndpoint true (some []) (some m) g
      = (⟨200, Body.reply r, []⟩,
         some [⟨Role.user, m⟩, ⟨Role.model, r⟩]) ∧
    finalMessage [] m ≠ m := by
  constructor
  · have h := chatEndpoint_ok (some []) m r g hm hg
    simpa [loadHistory] using h
  · intro heq
    rw [show finalMessage [] m = SYSTEM_PROMPT ++ "\n\nUser: " ++ m from rfl] at heq
    have hl := congrArg String.length heq
    rw [String.length_append, String.length_append] at hl
    have h8 : ("\n\nUser: " : String).length = 8 := rfl
    omega

/-- Concrete instance of `first_exchange`, with the message of the spec
example. -/
theorem first_exchange_witness :
    "Plan a 3-day trip to Kyoto" ≠ "" ∧
    ((fun _ _ => Except.ok "Day 1: Fushimi Inari." : Gateway)
        (formattedHistory []) (finalMessage [] "Plan a 3-day trip to Kyoto")
      = Except.ok "Day 1: Fushimi Inari.") ∧
    (chatEndpoint true (some []) (some "Plan a 3-day trip to Kyoto")
        (fun _ _ => Except.ok "Day 1: Fushimi Inari.")
      = (⟨200, Body.reply "Day 1: Fushimi Inari.", []⟩,
         some [⟨Role.user, "Plan a 3-day trip to Kyoto"⟩,
               ⟨Role.model, "Day 1: Fushimi Inari."⟩]) ∧
     finalMessage [] "Plan a 3-day trip to Kyoto" ≠ "Plan a 3-day trip to Kyoto") :=
  ⟨by decide, rfl,
   first_exchange "Plan a 3-day trip to Kyoto" "Day 1: Fushimi Inari."
     (fun _ _ => Except.ok "Day 1: Fushimi Inari.") (by decide) rfl⟩

/-- Claim C7: on every chat request that reaches the gateway, the gateway is
invoked with the entire stored transcript replayed in chronological order as
role-tagged messages (each stored turn mapped to its role and text) followed
by the possibly-prefixed new message: the formatted history is exactly that
map, and the request's outcome is determined by the gateway's value at
exactly those arguments. -/
theorem gateway_invocation (sess : Option (List Turn)) (m : String)
    (g : Gateway) (hm : m ≠ "") :
    formattedHistory (loadHistory sess)
      = (loadHistory sess).map (fun t => ⟨t.role, [t.text]⟩) ∧
    (∀ r, g (formattedHistory (loadHistory sess))
            (finalMessage (loadHistory sess) m) = Except.ok r →
        chatEndpoint true sess (some m) g
          = (⟨200, Body.reply r, []⟩,
             some (loadHistory sess ++ [⟨Role.user, m⟩, ⟨Role.model, r⟩]))) ∧
    (∀ e, g (formattedHistory (loadHistory sess))
            (finalMessage (loadHistory sess) m) = Except.error e →
        chatEndpoint true sess (some m) g = (⟨500, Body.error e, []⟩, sess)) :=
  ⟨formattedHistory_eq_map _,
   fun r hr => chatEndpoint_ok sess m r g hm hr,
   fun e he => chatEndpoint_err sess m e g hm he⟩

/-- Concrete instance of `gateway_invocation` on a two-turn transcript. -/
theorem gateway_invocation_witness :
    "second" ≠ "" ∧
    (formattedHistory
        (loadHistory (some [⟨Role.user, "a"⟩, ⟨Role.model, "b"⟩]))
      = (loadHistory
          (some [⟨Role.user, "a"⟩, ⟨Role.model, "b"⟩])).map
            (fun t => ⟨t.role, [t.text]⟩) ∧
     (∀ r, (fun _ _ => Except.ok "c" : Gateway)
            (formattedHistory
              (loadHistory (some [⟨Role.user, "a"⟩, ⟨Role.model, "b"⟩])))
            (finalMessage
              (loadHistory (some [⟨Role.user, "a"⟩, ⟨Role.model, "b"⟩]))
              "second") = Except.ok r →
        chatEndpoint true (some [⟨Role.user, "a"⟩, ⟨Role.model, "b"⟩])
            (some "second") (fun _ _ => Except.ok "c")
          = (⟨200, Body.reply r, []⟩,
             some (loadHistory (some [⟨Role.user, "a"⟩, ⟨Role.model, "b"⟩])
               ++ [⟨Role.user, "second"⟩, ⟨Role.model, r⟩]))) ∧
     (∀ e, (fun _ _ => Except.ok "c" : Gateway)
            (formattedHistory
              (loadHistory (some [⟨Role.user, "a"⟩, ⟨Role.model, "b"⟩])))
            (finalMessage
              (loadHistory (some [⟨Role.user, "a"⟩, ⟨Role.model, "b"⟩]))
              "second") = Except.error e →
        chatEndpoint true (some [⟨Role.user, "a"⟩, ⟨Role.model, "b"⟩])
            (some "second") (fun _ _ => Except.ok "c")
          = (⟨500, Body.error e, []⟩,
             some [⟨Role.user, "a"⟩, ⟨Role.model, "b"⟩]))) :=
  ⟨by decide,
   gateway_invocation (some [⟨Role.user, "a"⟩, ⟨Role.model, "b"⟩]) "second"
     (fun _ _ => Except.ok "c") (by decide)⟩

/-- Claim C8: `/clear` unconditionally empties the session transcript,
always answers 200 with the success status body, and is idempotent:
clearing again gives the identical result and the transcript stays empty. -/
theorem clear_always_succeeds (sess : Option (List Turn)) :
    clear_chat sess = (⟨200, Body.status "success", []⟩, none) ∧
    clear_chat (clear_chat sess).2 = clear_chat sess ∧
    loadHistory (clear_chat sess).2 = [] :=
  ⟨rfl, rfl, rfl⟩

lemma add_header_headers_of_empty (r : Response) (h : r.headers = []) :
    (add_header r).headers =
      [("Cache-Control",
        "no-store, no-cache, must-revalidate, post-check=0, pre-check=0, max-age=0"),
       ("Pragma", "no-cache"), ("Expires", "-1")] := by
  unfold add_header
  rw [h]
  rfl

/-- Claim C9: every response produced by any route — success or error, from
`/`, `/chat` or `/clear` — carries the cache-disabling headers stamped by
the after_request hook. -/
theorem all_responses_no_cache (cfg : Bool) (sess : Option (List Turn))
    (req : Request) :
    lookupHeader (handleRequest cfg sess req).1.headers "Cache-Control"
      = some "no-store, no-cache, must-revalidate, post-check=0, pre-check=0, max-age=0" ∧
    lookupHeader (handleRequest cfg sess req).1.headers "Pragma"
      = some "no-cache" ∧
    lookupHeader (handleRequest cfg sess req).1.headers "Expires"
      = some "-1" := by
  have key : ∀ r : Response, r.headers = [] →
      lookupHeader (add_header r).headers "Cache-Control"
        = some "no-store, no-cache, must-revalidate, post-check=0, pre-check=0, max-age=0" ∧
      lookupHeader (add_header r).headers "Pragma" = some "no-cache" ∧
      lookupHeader (add_header r).headers "Expires" = some "-1" := by
    intro r h
    refine ⟨?_, ?_, ?_⟩ <;> rw [add_header_headers_of_empty r h] <;> rfl
  cases req with
  | getIndex => exact key (index sess).1 rfl
  | postChat m g => exact key (chatEndpoint cfg sess m g).1 (chatEndpoint_headers cfg sess m g)
  | postClear => exact key (clear_chat sess).1 rfl

/-- Claim C10: a chat request on a session whose transcript key is absent
behaves exactly as if the transcript were empty: the history defaults to the
empty list, the response agrees with the empty-transcript response for every
configuration, message and gateway, the system prompt is applied, and a
successful request creates the transcript holding exactly the two new
turns — no prior `GET /` is needed. -/
theorem absent_key_as_empty (m r : String) (g : Gateway) (hm : m ≠ "")
    (hg : g (formattedHistory []) (finalMessage [] m) = Except.ok r) :
    loadHistory none = [] ∧
    (∀ (cfg : Bool) (msg : Option String) (g0 : Gateway),
        (chatEndpoint cfg none msg g0).1 = (chatEndpoint cfg (some []) msg g0).1) ∧
    finalMessage (loadHistory none) m = SYSTEM_PROMPT ++ "\n\nUser: " ++ m ∧
    chatEndpoint true none (some m) g
      = (⟨200, Body.reply r, []⟩,
         some [⟨Role.user, m⟩, ⟨Role.model, r⟩]) := by
  refine ⟨rfl, ?_, rfl, ?_⟩
  · intro cfg msg g0
    cases cfg with
    | false => rfl
    | true =>
      cases hB : isBlank msg with
      | true => rw [chatEndpoint_blank _ _ _ hB, chatEndpoint_blank _ _ _ hB]
      | false =>
        cases msg with
        | none => simp [isBlank] at hB
        | some s =>
          have hs : s ≠ "" := by
            intro hs0
            subst hs0
            simp [isBlank] at hB
          cases hE : g0 (formattedHistory []) (finalMessage [] s) with
          | ok rr =>
              rw [chatEndpoint_ok none s rr g0 hs hE,
                  chatEndpoint_ok (some []) s rr g0 hs hE]
          | error e =>
              rw [chatEndpoint_err none s e g0 hs hE,
                  chatEndpoint_err (some []) s e g0 hs hE]
  · have h := chatEndpoint_ok none m r g hm hg
    simpa [loadHistory] using h

/-- Concrete instance of `absent_key_as_empty`. -/
theorem absent_key_as_empty_witness :
    "hi" ≠ "" ∧
    ((fun _ _ => Except.ok "hello" : Gateway) (formattedHistory [])
        (finalMessage [] "hi") = Except.ok "hello") ∧
    (loadHistory none = [] ∧
     (∀ (cfg : Bool) (msg : Option String) (g0 : Gateway),
        (chatEndpoint cfg none msg g0).1
          = (chatEndpoint cfg (some []) msg g0).1) ∧
     finalMessage (loadHistory none) "hi"
        = SYSTEM_PROMPT ++ "\n\nUser: " ++ "hi" ∧
     chatEndpoint true none (some "hi") (fun _ _ => Except.ok "hello")
        = (⟨200, Body.reply "hello", []⟩,
           some [⟨Role.user, "hi"⟩, ⟨Role.model, "hello"⟩])) :=
  ⟨by decide, rfl,
   absent_key_as_empty "hi" "hello" (fun _ _ => Except.ok "hello")
     (by decide) rfl⟩

end TravelPlanner
